import Mathlib

/-!
Verification of the mp4-rust CMAF/ISOBMFF codec core.

Shallow embedding of the repository sources:
  src/mp4box/opus.rs   (MPEG-4 descriptor length codec)
  src/mp4box/av01.rs   (Av01Box / Av1CBox codecs)
  src/mp4box/colr.rs   (ColrBox codec)
  src/mp4box/frma.rs, schi.rs, schm.rs, tenc.rs, sinf.rs (protection boxes)
  src/cmaf/cmaf_chunk_writer.rs  (fragment writer)
  src/cmaf/cmaf_header_writer.rs (initialization-segment writer)

Machine integers are modelled as Nat (signed values as Int) with explicit
reductions modulo 2^w where the source can overflow.  Byte streams are
List Nat together with an explicit cursor position; fallible reads return
Except.  Definitions translated from files of the repository that are not
part of the examined sources (mp4box/mod.rs box-header codec, trun.rs,
tfhd.rs, tfdt.rs, mfhd.rs, moof.rs, traf.rs, track.rs) are modelled from
the specification and marked `Modelled from the spec:` in their doc
comments.
-/

deriving instance DecidableEq for Except

namespace Mp4

/-- Error type of the library: I/O failure, data-integrity error with its
message, a required child box that was absent, or a Rust panic. -/
inductive Err where
  | io : Err
  | invalidData : String → Err
  | boxNotFound : Nat → Err
  | panicked : Err
  deriving Repr, DecidableEq

/-- Big-endian bytes of a 16-bit value (byteorder `write_u16::<BigEndian>`). -/
def be16 (x : Nat) : List Nat := [x / 256 % 256, x % 256]

/-- Big-endian bytes of a 32-bit value (byteorder `write_u32::<BigEndian>`). -/
def be32 (x : Nat) : List Nat :=
  [x / 16777216 % 256, x / 65536 % 256, x / 256 % 256, x % 256]

/-- Big-endian bytes of a 64-bit value (byteorder `write_u64::<BigEndian>`). -/
def be64 (x : Nat) : List Nat :=
  (be32 (x / 4294967296 % 4294967296)) ++ (be32 (x % 4294967296))

/-- Read one byte at cursor `p`; an exhausted stream is an I/O error, as for
a Rust `Cursor` read past the end. -/
def rdU8 (b : List Nat) (p : Nat) : Except Err (Nat × Nat) :=
  match b[p]? with
  | some v => .ok (v, p + 1)
  | none => .error .io

/-- Read `n` bytes starting at cursor `p` (`read_exact`). -/
def rdBytes (b : List Nat) (p n : Nat) : Except Err (List Nat × Nat) :=
  let chunk := (b.drop p).take n
  if chunk.length = n then .ok (chunk, p + n) else .error .io

/-- byteorder `read_u16::<BigEndian>`. -/
def rdU16 (b : List Nat) (p : Nat) : Except Err (Nat × Nat) := do
  let (x, p) ← rdU8 b p
  let (y, p) ← rdU8 b p
  .ok (x * 256 + y, p)

/-- byteorder `read_u32::<BigEndian>`. -/
def rdU32 (b : List Nat) (p : Nat) : Except Err (Nat × Nat) := do
  let (x, p) ← rdU16 b p
  let (y, p) ← rdU16 b p
  .ok (x * 65536 + y, p)

/-- byteorder `read_u64::<BigEndian>`. -/
def rdU64 (b : List Nat) (p : Nat) : Except Err (Nat × Nat) := do
  let (x, p) ← rdU32 b p
  let (y, p) ← rdU32 b p
  .ok (x * 4294967296 + y, p)

/-! ## MPEG-4 descriptor length codec (src/mp4box/opus.rs) -/

/-- Loop body of `read_desc`: up to `fuel` length bytes, accumulating 7 bits
per byte, stopping at a byte whose continuation bit is clear. -/
def readDescLen (b : List Nat) (p : Nat) (acc : Nat) : Nat → Except Err (Nat × Nat)
  | 0 => .ok (acc, p)
  | fuel + 1 => do
    let (byte, p) ← rdU8 b p
    let acc := (acc <<< 7) ||| (byte &&& 0x7F)
    if byte &&& 0x80 = 0 then .ok (acc, p) else readDescLen b p acc fuel

/-- `read_desc`: a 1-byte tag followed by a base-128 length of at most
4 bytes. -/
def read_desc (b : List Nat) (p : Nat) : Except Err ((Nat × Nat) × Nat) := do
  let (tag, p) ← rdU8 b p
  let (size, p) ← readDescLen b p 0 4
  .ok ((tag, size), p)

/-- `size_of_length`: number of length bytes the encoder uses. -/
def size_of_length (size : Nat) : Nat :=
  if size ≤ 0x7F then 1
  else if size ≤ 0x3FFF then 2
  else if size ≤ 0x1FFFFF then 3
  else 4

/-- Length bytes emitted by `write_desc` for indices `i < nbytes`,
`b = (size >> ((nbytes - i - 1) * 7)) as u8 & 0x7F`, with the continuation
bit set on all but the last. -/
def writeDescBytes (size nbytes : Nat) : Nat → List Nat
  | 0 => []
  | fuel + 1 =>
    let i := nbytes - fuel - 1
    let b := (size >>> ((nbytes - i - 1) * 7)) % 256 &&& 0x7F
    let b := if i < nbytes - 1 then b ||| 0x80 else b
    b :: writeDescBytes size nbytes fuel

/-- `write_desc`: writes the tag byte, then the length; the range guard of
the source (`size as u64 > u32::MAX as u64`) is kept verbatim, though it can
never fire for a u32-valued size. -/
def write_desc (tag size : Nat) : Except Err (List Nat × Nat) :=
  if size > 4294967295 then .error (.invalidData "invalid descriptor length range")
  else
    let nbytes := size_of_length size
    .ok (tag :: writeDescBytes size nbytes nbytes, 1 + nbytes)

/-- Bytes emitted by a successful `write_desc` call: the tag byte followed
by the length bytes. -/
def descOut (tag size : Nat) : List Nat :=
  tag :: writeDescBytes size (size_of_length size) (size_of_length size)

/-! ## Box header and full-box extension codec

Modelled from the spec: the box header codec lives in mp4box/mod.rs, which
is not among the examined sources.  Per the spec it encodes the
`(size, fourcc)` prefix as a 4-byte big-endian size followed by the 4-byte
type tag (`HEADER_SIZE = 8`), and the full-box extension as a version byte
followed by a 3-byte flags field (`HEADER_EXT_SIZE = 4`). -/

/-- `HEADER_SIZE`. -/
def HEADER_SIZE : Nat := 8

/-- `HEADER_EXT_SIZE`. -/
def HEADER_EXT_SIZE : Nat := 4

/-- A 4-byte type tag as a u32, as `BoxType` stores it. -/
def fourcc (a b c d : Nat) : Nat := ((a * 256 + b) * 256 + c) * 256 + d

def tencFourcc : Nat := fourcc 116 101 110 99
def frmaFourcc : Nat := fourcc 102 114 109 97
def schiFourcc : Nat := fourcc 115 99 104 105
def schmFourcc : Nat := fourcc 115 99 104 109
def sinfFourcc : Nat := fourcc 115 105 110 102
def av01Fourcc : Nat := fourcc 97 118 48 49
def av1cFourcc : Nat := fourcc 97 118 49 67
def colrFourcc : Nat := fourcc 99 111 108 114
def paspFourcc : Nat := fourcc 112 97 115 112
def mdatFourcc : Nat := fourcc 109 100 97 116
def moofFourcc : Nat := fourcc 109 111 111 102
def mfhdFourcc : Nat := fourcc 109 102 104 100
def trafFourcc : Nat := fourcc 116 114 97 102
def tfhdFourcc : Nat := fourcc 116 102 104 100
def tfdtFourcc : Nat := fourcc 116 102 100 116
def trunFourcc : Nat := fourcc 116 114 117 110

/-- Modelled from the spec: `BoxHeader::write` — 4-byte big-endian size then
the 4-byte tag. -/
def boxHeader (name size : Nat) : List Nat := be32 size ++ be32 name

/-- Modelled from the spec: `BoxHeader::read` — returns `(name, size)` and
the advanced cursor. -/
def readBoxHeader (b : List Nat) (p : Nat) : Except Err ((Nat × Nat) × Nat) := do
  let (size, p) ← rdU32 b p
  let (name, p) ← rdU32 b p
  .ok ((name, size), p)

/-- Modelled from the spec: `write_box_header_ext` — version byte then
3-byte big-endian flags. -/
def extHeader (version flags : Nat) : List Nat :=
  [version % 256, flags / 65536 % 256, flags / 256 % 256, flags % 256]

/-- Modelled from the spec: `read_box_header_ext` — returns
`(version, flags)`. -/
def readExtHeader (b : List Nat) (p : Nat) : Except Err ((Nat × Nat) × Nat) := do
  let (v, p) ← rdU32 b p
  .ok ((v >>> 24, v &&& 0xFFFFFF), p)

/-- Modelled from the spec: `box_start` — the position of the enclosing
box's first byte, the header having just been consumed. -/
def box_start (p : Nat) : Nat := p - HEADER_SIZE

/-- Modelled from the spec: `skip_bytes_to` — an absolute seek; a plain
cursor move that may go backwards or past the end, as `Cursor::seek`. -/
def skip_bytes_to (pos : Nat) : Nat := pos

/-- Modelled from the spec: `skip_box` — seek to the start of the box whose
header was just consumed plus its declared size. -/
def skip_box (p size : Nat) : Nat := box_start p + size

/-! ## Track Encryption Box (src/mp4box/tenc.rs) -/

structure TencBox where
  default_crypt_byte_block : Option Nat
  default_skip_byte_block : Option Nat
  default_is_protected : Bool
  default_per_sample_iv_size : Nat
  default_kid : List Nat
  default_constant_iv_size : Option Nat
  default_constant_iv : Option (List Nat)
  deriving Repr, DecidableEq

/-- `TencBox::new_unprotected`. -/
def TencBox.new_unprotected : TencBox :=
  ⟨none, none, false, 0, List.replicate 16 0, none, none⟩

/-- `TencBox::get_size`. -/
def TencBox.get_size (t : TencBox) : Nat :=
  HEADER_SIZE + HEADER_EXT_SIZE + 1 + 1 + 1 + 1 + 16 +
    (match t.default_constant_iv_size with
     | some s => s + 1
     | none => 0)

/-- Everything `TencBox::write_box` emits before the constant-IV branch:
box header, full-box extension, the reserved / pattern / protection / IV
size bytes, and the default KID. -/
def TencBox.fixedFields (t : TencBox) : List Nat :=
  let version : Nat :=
    if t.default_skip_byte_block.isSome ∧ t.default_crypt_byte_block.isSome
    then 1 else 0
  let temp : Nat :=
    match t.default_skip_byte_block, t.default_crypt_byte_block with
    | some skip, some crypt => ((skip <<< 4) &&& 255) ||| crypt
    | _, _ => 0
  boxHeader tencFourcc t.get_size ++ extHeader version 0 ++
    [0, temp, if t.default_is_protected then 1 else 0,
     t.default_per_sample_iv_size] ++ t.default_kid

/-- The constant-IV loop: `iv[i]` for `i < size`; an index beyond the
16-byte array is a Rust panic. -/
def ivLoopBytes (iv : List Nat) (s : Nat) : Except Err (List Nat) :=
  if s ≤ iv.length then .ok (iv.take s) else .error .panicked

/-- `TencBox::write_box`: the emitted bytes paired with the result — the
declared size on success, the error otherwise (the emitted bytes being what
reached the writer before the failure). -/
def TencBox.write_box (t : TencBox) : List Nat × Except Err Nat :=
  let size := t.get_size
  let fixed := t.fixedFields
  if t.default_is_protected ∧ t.default_per_sample_iv_size = 0 then
    match t.default_constant_iv_size, t.default_constant_iv with
    | some s, some iv =>
      match ivLoopBytes iv s with
      | .ok ivb => (fixed ++ s :: ivb, .ok size)
      | .error e => (fixed ++ [s], .error e)
    | _, _ =>
      (fixed, .error (.invalidData "default_constant_iv_size and default_constant_iv must be set when default_is_protected is true and default_per_sample_iv_size is 0"))
  else (fixed, .ok size)

/-! ## Colour box (src/mp4box/colr.rs) -/

structure ColorConfig where
  color_primaries : Nat
  transfer_characteristics : Nat
  matrix_coefficients : Nat
  full_range : Bool
  deriving Repr, DecidableEq

inductive Color where
  | nclx : ColorConfig → Color
  | prof : List Nat → Color
  deriving Repr, DecidableEq

/-- `Color::get_size`. -/
def Color.get_size : Color → Nat
  | .nclx _ => 3 * 2 + 1
  | .prof icc => icc.length

/-- `Color::tag` as its 4 bytes. -/
def Color.tagBytes : Color → List Nat
  | .nclx _ => [110, 99, 108, 120]
  | .prof _ => [112, 114, 111, 102]

structure ColrBox where
  color_config : Color
  deriving Repr, DecidableEq

/-- `ColrBox::get_size`. -/
def ColrBox.get_size (c : ColrBox) : Nat :=
  HEADER_SIZE + 4 + c.color_config.get_size

/-- `ColrBox::write_box` (writes cannot fail into a byte buffer, so only the
emitted bytes are modelled; the returned count is the declared size). -/
def ColrBox.write_box (c : ColrBox) : List Nat :=
  boxHeader colrFourcc c.get_size ++ c.color_config.tagBytes ++
    (match c.color_config with
     | .nclx cfg =>
       be16 cfg.color_primaries ++ be16 cfg.transfer_characteristics ++
         be16 cfg.matrix_coefficients ++ [if cfg.full_range then 128 else 0]
     | .prof icc => icc)

/-- `ColrBox::read_box`.  The prof branch sizes the ICC payload as
`size - position` with the absolute cursor position, exactly as the source
does (u64 subtraction, here Nat truncated subtraction). -/
def ColrBox.read_box (b : List Nat) (p : Nat) (size : Nat) :
    Except Err (ColrBox × Nat) := do
  let start := box_start p
  let (tag, p) ← rdBytes b p 4
  if tag = [112, 114, 111, 102] then
    let (icc, _) ← rdBytes b p (size - p)
    .ok (⟨.prof icc⟩, skip_bytes_to (start + size))
  else if tag = [110, 99, 108, 120] then
    let (cp, p) ← rdU16 b p
    let (tc, p) ← rdU16 b p
    let (mc, p) ← rdU16 b p
    let (fr, _) ← rdU8 b p
    .ok (⟨.nclx ⟨cp, tc, mc, fr >>> 7 > 0⟩⟩, skip_bytes_to (start + size))
  else
    .error (.invalidData "invalid colr tag")

/-! ## AV1 configuration box (src/mp4box/av01.rs) -/

structure Av1CBox where
  tier : Nat
  profile : Nat
  level_idx : Nat
  bit_depth : Nat
  monochrome : Bool
  subsampling_x : Nat
  subsampling_y : Nat
  chroma_sample_position : Nat
  initial_presentation_delay_minus_one : Option Nat
  sequence_header : List Nat
  deriving Repr, DecidableEq

/-- `Av1CBox::box_size`. -/
def Av1CBox.box_size (a : Av1CBox) : Nat :=
  HEADER_SIZE + 4 + a.sequence_header.length

/-- Second config byte written by `Av1CBox::write_box`
(`profile << 5 | level_idx`, u8 arithmetic). -/
def Av1CBox.byte1 (a : Av1CBox) : Nat :=
  ((a.profile <<< 5) &&& 255) ||| a.level_idx

/-- Third config byte written by `Av1CBox::write_box` (tier, bit-depth
bits, monochrome, subsampling, chroma position; u8 arithmetic). -/
def Av1CBox.byte2 (a : Av1CBox) : Nat :=
  ((a.tier <<< 7) &&& 255) |||
    (((if a.bit_depth > 8 then 1 else 0) <<< 6) &&& 255) |||
    (((if a.bit_depth = 12 then 1 else 0) <<< 5) &&& 255) |||
    (((if a.monochrome then 1 else 0) <<< 4) &&& 255) |||
    (((a.subsampling_x <<< 3) &&& 255)) |||
    (((a.subsampling_y <<< 2) &&& 255)) |||
    a.chroma_sample_position

/-- `Av1CBox::write_box`: marker+version byte 129, the two config bytes, a
zero byte (the initial presentation delay is never written — source TODO),
then the sequence header. -/
def Av1CBox.write_box (a : Av1CBox) : List Nat :=
  boxHeader av1cFourcc a.box_size ++ [129, a.byte1, a.byte2, 0] ++
    a.sequence_header

/-- The value of `Av1CBox.byte2` as a function of the seven encoded
fields, for bounded-case reasoning. -/
def byte2of (t d1 d2 m sx sy c : Nat) : Nat :=
  ((t <<< 7) &&& 255) ||| ((d1 <<< 6) &&& 255) ||| ((d2 <<< 5) &&& 255) |||
    ((m <<< 4) &&& 255) ||| ((sx <<< 3) &&& 255) ||| ((sy <<< 2) &&& 255) ||| c

/-- `Av1CBox::read_box`. -/
def Av1CBox.read_box (b : List Nat) (p : Nat) (size : Nat) :
    Except Err (Av1CBox × Nat) := do
  let start := box_start p
  let (info, p) ← rdBytes b p 4
  let i1 := info.getD 1 0
  let i2 := info.getD 2 0
  let i3 := info.getD 3 0
  let profile := i1 >>> 5
  let level_idx := i1 &&& 0x1f
  let tier := i2 >>> 7
  let high_bit_depth := (i2 >>> 6) &&& 1 = 1
  let bit_depth_twelve := (i2 >>> 5) &&& 1 = 1
  let monochrome := (i2 >>> 4) &&& 1 = 1
  let subsampling_x := (i2 >>> 3) &&& 1
  let subsampling_y := (i2 >>> 2) &&& 1
  let chroma_sample_position := i2 &&& 0x3
  let delay_present := (i3 >>> 4) &&& 1 = 1
  let delay_minus_one := i3 &&& 0xf
  let sequence_header_length := start + size - p
  let (sequence_header, _) ← rdBytes b p sequence_header_length
  let bit_depth : Nat :=
    if high_bit_depth then (if bit_depth_twelve then 12 else 10) else 8
  .ok (⟨tier, profile, level_idx, bit_depth, monochrome, subsampling_x,
      subsampling_y, chroma_sample_position,
      if delay_present then some delay_minus_one else none,
      sequence_header⟩,
    skip_bytes_to (start + size))

/-! ## Protection boxes: frma, tenc read, schi, schm, sinf
(src/mp4box/frma.rs, tenc.rs, schi.rs, schm.rs, sinf.rs) -/

structure FrmaBox where
  data_format : Nat
  deriving  Repr, DecidableEq

/-- `FrmaBox::read_box`. -/
def FrmaBox.read_box (b : List Nat) (p : Nat) (size : Nat) :
    Except Err (FrmaBox × Nat) := do
  let start := box_start p
  let (data_format, _) ← rdU32 b p
  .ok (⟨data_format⟩, skip_bytes_to (start + size))

/-- `TencBox::read_box`.  The constant-IV loop fills a 16-byte array from
the stream; an IV size beyond 16 indexes past the array, a Rust panic. -/
def TencBox.read_box (b : List Nat) (p : Nat) (size : Nat) :
    Except Err (TencBox × Nat) := do
  let start := box_start p
  let ((version, _flags), p) ← readExtHeader b p
  let (_reserved, p) ← rdU8 b p
  let (temp, p) ← rdU8 b p
  let (default_crypt_byte_block, default_skip_byte_block) :=
    if version ≠ 0 then (some (temp &&& 0x0F), some ((temp &&& 0xF0) >>> 4))
    else (none, none)
  let (prot, p) ← rdU8 b p
  let default_is_protected := prot = 1
  let (default_per_sample_iv_size, p) ← rdU8 b p
  let (default_kid, p) ← rdBytes b p 16
  if default_is_protected ∧ default_per_sample_iv_size = 0 then do
    let (cs, p) ← rdU8 b p
    if cs ≤ 16 then do
      let (ivb, _) ← rdBytes b p cs
      .ok (⟨default_crypt_byte_block, default_skip_byte_block,
          default_is_protected, default_per_sample_iv_size, default_kid,
          some cs, some (ivb ++ List.replicate (16 - cs) 0)⟩,
        skip_bytes_to (start + size))
    else .error .panicked
  else
    .ok (⟨default_crypt_byte_block, default_skip_byte_block,
        default_is_protected, default_per_sample_iv_size, default_kid,
        none, none⟩,
      skip_bytes_to (start + size))

structure SchiBox where
  tenc : TencBox
  deriving Repr, DecidableEq

/-- `SchiBox::read_box`. -/
def SchiBox.read_box (b : List Nat) (p : Nat) (size : Nat) :
    Except Err (SchiBox × Nat) := do
  let start := box_start p
  let ((name, s), p) ← readBoxHeader b p
  if s > size then
    .error (.invalidData "stsd box contains a box with a larger size than it")
  else if name = tencFourcc then do
    let (tenc, _) ← TencBox.read_box b p s
    .ok (⟨tenc⟩, skip_bytes_to (start + size))
  else .error (.invalidData "Invalid box type in SchiBox")

structure SchmBox where
  version : Nat
  flags : Nat
  scheme_type : Nat
  scheme_version : Nat
  scheme_uri : Option (List Nat)
  deriving Repr, DecidableEq

/-- The scheme-URI loop of `SchmBox::read_box`: bytes until a NUL.  The fuel
equals the bytes left plus one at the call site, so exhausting it coincides
with running off the end of the stream (an I/O error, as in the source). -/
def readCStr (b : List Nat) (p : Nat) : Nat → Except Err (List Nat × Nat)
  | 0 => .error .io
  | fuel + 1 => do
    let (c, p) ← rdU8 b p
    if c = 0 then .ok ([], p)
    else do
      let (rest, p) ← readCStr b p fuel
      .ok (c :: rest, p)

/-- `SchmBox::read_box`. -/
def SchmBox.read_box (b : List Nat) (p : Nat) (size : Nat) :
    Except Err (SchmBox × Nat) := do
  let start := box_start p
  let ((version, flags), p) ← readExtHeader b p
  let (scheme_type, p) ← rdU32 b p
  let (scheme_version, p) ← rdU32 b p
  if flags &&& 1 = 1 then do
    let (uri, _) ← readCStr b p (b.length + 1 - p)
    .ok (⟨version, flags, scheme_type, scheme_version, some uri⟩,
      skip_bytes_to (start + size))
  else
    .ok (⟨version, flags, scheme_type, scheme_version, none⟩,
      skip_bytes_to (start + size))

structure SinfBox where
  frma : FrmaBox
  schi : Option SchiBox
  schm : Option SchmBox
  deriving Repr, DecidableEq

/-- The child loop of `SinfBox::read_box`: while the cursor is before the
parent's declared end, read a child header, fail if the child's declared
size exceeds the parent's declared size, dispatch known tags, skip unknown
ones.  The fuel bounds the number of iterations (any terminating run of the
source loop makes at most `size + 1` of them). -/
def sinfLoop (b : List Nat) (size end_ : Nat) (frma : Option FrmaBox)
    (schi : Option SchiBox) (schm : Option SchmBox) (cur : Nat) :
    Nat → Except Err ((Option FrmaBox × Option SchiBox × Option SchmBox) × Nat)
  | 0 => .error .io
  | fuel + 1 =>
    if cur < end_ then do
      let ((name, s), p) ← readBoxHeader b cur
      if s > size then
        .error (.invalidData "sinf box contains a box with a larger size than it")
      else if name = frmaFourcc then do
        let (f, p2) ← FrmaBox.read_box b p s
        sinfLoop b size end_ (some f) schi schm p2 fuel
      else if name = schiFourcc then do
        let (sc, p2) ← SchiBox.read_box b p s
        sinfLoop b size end_ frma (some sc) schm p2 fuel
      else if name = schmFourcc then do
        let (sm, p2) ← SchmBox.read_box b p s
        sinfLoop b size end_ frma schi (some sm) p2 fuel
      else
        sinfLoop b size end_ frma schi schm (skip_box p s) fuel
    else .ok ((frma, schi, schm), cur)

/-- `SinfBox::read_box`. -/
def SinfBox.read_box (b : List Nat) (p : Nat) (size : Nat) :
    Except Err (SinfBox × Nat) := do
  let start := box_start p
  let (children, _) ← sinfLoop b size (start + size) none none none p (size + 1)
  match children.1 with
  | some f => .ok (⟨f, children.2.1, children.2.2⟩, skip_bytes_to (start + size))
  | none => .error (.boxNotFound frmaFourcc)

/-! ## Movie-fragment boxes

Modelled from the spec: trun.rs, tfhd.rs, tfdt.rs, mfhd.rs, traf.rs and
moof.rs are not among the examined sources; the structures, flag
constants, sizes and byte layouts below follow the spec (§3, §4.5) and the
ISO 14496-12 encodings the spec references. -/

structure TrunBox where
  version : Nat
  flags : Nat
  data_offset : Option Int
  first_sample_flags : Option Nat
  sample_count : Nat
  sample_durations : List Nat
  sample_sizes : List Nat
  sample_flags : List Nat
  sample_cts : List Nat
  deriving Repr, DecidableEq

def TrunBox.FLAG_DATA_OFFSET : Nat := 0x01
def TrunBox.FLAG_FIRST_SAMPLE_FLAGS : Nat := 0x04
def TrunBox.FLAG_SAMPLE_DURATION : Nat := 0x100
def TrunBox.FLAG_SAMPLE_SIZE : Nat := 0x200
def TrunBox.FLAG_SAMPLE_FLAGS : Nat := 0x400
def TrunBox.FLAG_SAMPLE_CTS : Nat := 0x800
def TrunBox.FLAG_SAMPLE_DEPENDS_YES : Nat := 0x01000000
def TrunBox.FLAG_SAMPLE_DEPENDS_NO : Nat := 0x02000000
def TrunBox.FLAG_SAMPLE_FLAG_IS_NON_SYNC : Nat := 0x00010000

/-- `TrunBox::default()`. -/
def TrunBox.default : TrunBox := ⟨0, 0, none, none, 0, [], [], [], []⟩

/-- Modelled from the spec: `TrunBox::duration` — the sum of the per-sample
durations. -/
def TrunBox.duration (t : TrunBox) : Nat := t.sample_durations.sum

/-- Per-sample byte cost of a trun entry under the given flags. -/
def TrunBox.entrySize (flags : Nat) : Nat :=
  (if flags &&& TrunBox.FLAG_SAMPLE_DURATION ≠ 0 then 4 else 0) +
  (if flags &&& TrunBox.FLAG_SAMPLE_SIZE ≠ 0 then 4 else 0) +
  (if flags &&& TrunBox.FLAG_SAMPLE_FLAGS ≠ 0 then 4 else 0) +
  (if flags &&& TrunBox.FLAG_SAMPLE_CTS ≠ 0 then 4 else 0)

/-- Modelled from the spec: `TrunBox::box_size`. -/
def TrunBox.get_size (t : TrunBox) : Nat :=
  HEADER_SIZE + HEADER_EXT_SIZE + 4 +
  (if t.flags &&& TrunBox.FLAG_DATA_OFFSET ≠ 0 then 4 else 0) +
  (if t.flags &&& TrunBox.FLAG_FIRST_SAMPLE_FLAGS ≠ 0 then 4 else 0) +
  t.sample_count * TrunBox.entrySize t.flags

/-- Two's-complement bit pattern of an i32 value, as it is written to the
wire. -/
def i32bits (v : Int) : Nat := (v.emod 4294967296).toNat

/-- The i32 value obtained by truncating a u64, as in `x as i32`. -/
def i32val (n : Nat) : Int :=
  if n % 4294967296 < 2147483648 then ((n % 4294967296 : Nat) : Int)
  else ((n % 4294967296 : Nat) : Int) - 4294967296

/-- Modelled from the spec: the per-sample records of `TrunBox::write_box`,
one record per sample up to `sample_count`. -/
def TrunBox.writeEntries (flags : Nat) :
    Nat → List Nat → List Nat → List Nat → List Nat → List Nat
  | 0, _, _, _, _ => []
  | n + 1, durs, sizes, fl, cts =>
    (if flags &&& TrunBox.FLAG_SAMPLE_DURATION ≠ 0 then be32 (durs.headD 0) else []) ++
    (if flags &&& TrunBox.FLAG_SAMPLE_SIZE ≠ 0 then be32 (sizes.headD 0) else []) ++
    (if flags &&& TrunBox.FLAG_SAMPLE_FLAGS ≠ 0 then be32 (fl.headD 0) else []) ++
    (if flags &&& TrunBox.FLAG_SAMPLE_CTS ≠ 0 then be32 (cts.headD 0) else []) ++
    TrunBox.writeEntries flags n durs.tail sizes.tail fl.tail cts.tail

/-- Modelled from the spec: `TrunBox::write_box`. -/
def TrunBox.write (t : TrunBox) : List Nat :=
  boxHeader trunFourcc t.get_size ++ extHeader t.version t.flags ++
  be32 t.sample_count ++
  (if t.flags &&& TrunBox.FLAG_DATA_OFFSET ≠ 0
   then be32 (i32bits (t.data_offset.getD 0)) else []) ++
  (if t.flags &&& TrunBox.FLAG_FIRST_SAMPLE_FLAGS ≠ 0
   then be32 (t.first_sample_flags.getD 0) else []) ++
  TrunBox.writeEntries t.flags t.sample_count t.sample_durations
    t.sample_sizes t.sample_flags t.sample_cts

structure TfhdBox where
  version : Nat
  flags : Nat
  track_id : Nat
  base_data_offset : Option Nat
  sample_description_index : Option Nat
  default_sample_duration : Option Nat
  default_sample_size : Option Nat
  default_sample_flags : Option Nat
  deriving Repr, DecidableEq

def TfhdBox.FLAG_BASE_DATA_OFFSET : Nat := 0x01
def TfhdBox.FLAG_SAMPLE_DESCRIPTION_INDEX : Nat := 0x02
def TfhdBox.FLAG_DEFAULT_SAMPLE_DURATION : Nat := 0x08
def TfhdBox.FLAG_DEFAULT_SAMPLE_SIZE : Nat := 0x10
def TfhdBox.FLAG_DEFAULT_SAMPLE_FLAGS : Nat := 0x20

/-- `TfhdBox::default()`. -/
def TfhdBox.default : TfhdBox := ⟨0, 0, 0, none, none, none, none, none⟩

/-- Modelled from the spec: `TfhdBox::box_size`. -/
def TfhdBox.get_size (t : TfhdBox) : Nat :=
  HEADER_SIZE + HEADER_EXT_SIZE + 4 +
  (if t.flags &&& TfhdBox.FLAG_BASE_DATA_OFFSET ≠ 0 then 8 else 0) +
  (if t.flags &&& TfhdBox.FLAG_SAMPLE_DESCRIPTION_INDEX ≠ 0 then 4 else 0) +
  (if t.flags &&& TfhdBox.FLAG_DEFAULT_SAMPLE_DURATION ≠ 0 then 4 else 0) +
  (if t.flags &&& TfhdBox.FLAG_DEFAULT_SAMPLE_SIZE ≠ 0 then 4 else 0) +
  (if t.flags &&& TfhdBox.FLAG_DEFAULT_SAMPLE_FLAGS ≠ 0 then 4 else 0)

/-- Modelled from the spec: `TfhdBox::write_box`. -/
def TfhdBox.write (t : TfhdBox) : List Nat :=
  boxHeader tfhdFourcc t.get_size ++ extHeader t.version t.flags ++
  be32 t.track_id ++
  (if t.flags &&& TfhdBox.FLAG_BASE_DATA_OFFSET ≠ 0
   then be64 (t.base_data_offset.getD 0) else []) ++
  (if t.flags &&& TfhdBox.FLAG_SAMPLE_DESCRIPTION_INDEX ≠ 0
   then be32 (t.sample_description_index.getD 0) else []) ++
  (if t.flags &&& TfhdBox.FLAG_DEFAULT_SAMPLE_DURATION ≠ 0
   then be32 (t.default_sample_duration.getD 0) else []) ++
  (if t.flags &&& TfhdBox.FLAG_DEFAULT_SAMPLE_SIZE ≠ 0
   then be32 (t.default_sample_size.getD 0) else []) ++
  (if t.flags &&& TfhdBox.FLAG_DEFAULT_SAMPLE_FLAGS ≠ 0
   then be32 (t.default_sample_flags.getD 0) else [])

structure TfdtBox where
  version : Nat
  flags : Nat
  base_media_decode_time : Nat
  deriving Repr, DecidableEq

/-- Modelled from the spec: `TfdtBox::box_size` — 64-bit decode time under
version 1, 32-bit under version 0. -/
def TfdtBox.get_size (t : TfdtBox) : Nat :=
  HEADER_SIZE + HEADER_EXT_SIZE + (if t.version = 1 then 8 else 4)

/-- Modelled from the spec: `TfdtBox::write_box`. -/
def TfdtBox.write (t : TfdtBox) : List Nat :=
  boxHeader tfdtFourcc t.get_size ++ extHeader t.version t.flags ++
  (if t.version = 1 then be64 t.base_media_decode_time
   else be32 t.base_media_decode_time)

structure MfhdBox where
  version : Nat
  flags : Nat
  sequence_number : Nat
  deriving Repr, DecidableEq

/-- Modelled from the spec: `MfhdBox::box_size`. -/
def MfhdBox.get_size (_ : MfhdBox) : Nat := HEADER_SIZE + HEADER_EXT_SIZE + 4

/-- Modelled from the spec: `MfhdBox::write_box`. -/
def MfhdBox.write (m : MfhdBox) : List Nat :=
  boxHeader mfhdFourcc m.get_size ++ extHeader m.version m.flags ++
  be32 m.sequence_number

structure TrafBox where
  tfhd : TfhdBox
  tfdt : Option TfdtBox
  trun : Option TrunBox
  deriving Repr, DecidableEq

/-- Modelled from the spec: `TrafBox::box_size`. -/
def TrafBox.get_size (t : TrafBox) : Nat :=
  HEADER_SIZE + t.tfhd.get_size +
  (match t.tfdt with | some d => d.get_size | none => 0) +
  (match t.trun with | some r => r.get_size | none => 0)

/-- Modelled from the spec: `TrafBox::write_box`. -/
def TrafBox.write (t : TrafBox) : List Nat :=
  boxHeader trafFourcc t.get_size ++ t.tfhd.write ++
  (match t.tfdt with | some d => d.write | none => []) ++
  (match t.trun with | some r => r.write | none => [])

structure MoofBox where
  mfhd : MfhdBox
  trafs : List TrafBox
  deriving Repr, DecidableEq

/-- Modelled from the spec: `MoofBox::get_size`. -/
def MoofBox.get_size (m : MoofBox) : Nat :=
  HEADER_SIZE + m.mfhd.get_size + (m.trafs.map TrafBox.get_size).sum

/-- Modelled from the spec: `MoofBox::write_box`. -/
def MoofBox.write (m : MoofBox) : List Nat :=
  boxHeader moofFourcc m.get_size ++ m.mfhd.write ++
  (m.trafs.map TrafBox.write).flatten

/-- Producer-reference-time box (src/mp4box/prft.rs). -/
structure PrftBox where
  version : Nat
  flags : Nat
  reference_track_id : Nat
  ntp_timestamp : Nat
  media_time : Nat
  deriving Repr, DecidableEq

def prftFourcc : Nat := fourcc 112 114 102 116

/-- `PrftBox::get_size`. -/
def PrftBox.get_size (p : PrftBox) : Nat :=
  HEADER_SIZE + HEADER_EXT_SIZE + 4 + 8 +
  (if p.version = 1 then 8 else if p.version = 0 then 4 else 0)

/-- `PrftBox::write_box`. -/
def PrftBox.write (p : PrftBox) : List Nat :=
  boxHeader prftFourcc p.get_size ++ extHeader p.version p.flags ++
  be32 p.reference_track_id ++ be64 p.ntp_timestamp ++
  (if p.version = 0 then be32 p.media_time else be64 p.media_time)

/-! ## CMAF fragment writer (src/cmaf/cmaf_chunk_writer.rs) -/

/-- `Mp4Sample` (the unit of input to the fragment writer, spec §3):
rendering_offset is an i32 in the source, modelled as an Int. -/
structure Mp4Sample where
  start_time : Nat
  duration : Nat
  rendering_offset : Int
  is_sync : Bool
  bytes : List Nat
  deriving Repr, DecidableEq

structure CmafChunkConfig where
  timescale : Nat
  default_sample_duration : Nat
  default_sample_size : Nat
  default_sample_flags : Nat
  producer_reference_time : Option (Nat × Nat)
  deriving Repr, DecidableEq

/-- The fragment writer's state between calls.  The underlying sink and the
`EmsgBox` values are represented by the bytes they serialize to. -/
structure CmafChunkWriter where
  traf : TrafBox
  mfhd : MfhdBox
  prft : Option PrftBox
  emsgs : List (List Nat)
  samples : List (List Nat)
  timescale : Nat
  deriving Repr, DecidableEq

/-- `CmafChunkWriter::write_start`. -/
def CmafChunkWriter.write_start (track_id : Nat) (config : CmafChunkConfig) :
    CmafChunkWriter :=
  let tfhd : TfhdBox :=
    { TfhdBox.default with
        track_id := track_id
        flags := TfhdBox.FLAG_DEFAULT_SAMPLE_FLAGS |||
          TfhdBox.FLAG_DEFAULT_SAMPLE_DURATION ||| TfhdBox.FLAG_DEFAULT_SAMPLE_SIZE
        default_sample_flags := some config.default_sample_flags
        default_sample_duration := some config.default_sample_duration
        default_sample_size := some config.default_sample_size }
  { traf := ⟨tfhd, none, none⟩
    mfhd := ⟨0, 0, 0⟩
    prft := config.producer_reference_time.map fun prt =>
      ⟨1, 0, track_id, prt.1, prt.2⟩
    emsgs := []
    samples := []
    timescale := config.timescale }

/-- `CmafChunkWriter::sample_trun_flags`. -/
def CmafChunkWriter.sample_trun_flags (sample : Mp4Sample) : Nat :=
  if sample.is_sync then TrunBox.FLAG_SAMPLE_DEPENDS_NO
  else TrunBox.FLAG_SAMPLE_DEPENDS_YES ||| TrunBox.FLAG_SAMPLE_FLAG_IS_NON_SYNC

/-- The fresh run `write_sample` inserts on its first call
(`trun.get_or_insert` with version 1, a placeholder data offset, and the
data-offset / sample-duration / sample-size flags). -/
def CmafChunkWriter.newTrun : TrunBox :=
  { TrunBox.default with
      version := 1
      data_offset := some 0
      flags := TrunBox.FLAG_DATA_OFFSET ||| TrunBox.FLAG_SAMPLE_DURATION |||
        TrunBox.FLAG_SAMPLE_SIZE }

/-- The first-sample-flags step of `write_sample`: when the derived flags
differ from the track default and this is the first sample, set the
override flag bit and `get_or_insert` the override value. -/
def CmafChunkWriter.trunFirstFlagsStep (trun : TrunBox) (stf : Nat)
    (cond : Bool) : TrunBox :=
  if cond then
    { trun with
        flags := trun.flags ||| TrunBox.FLAG_FIRST_SAMPLE_FLAGS
        first_sample_flags := some (trun.first_sample_flags.getD stf) }
  else trun

/-- The per-sample append step of `write_sample`: sets `sample_count` and
pushes duration, size, composition offset (cast to u32 bits) and flags. -/
def CmafChunkWriter.trunPushStep (trun : TrunBox) (count : Nat)
    (sample : Mp4Sample) (stf : Nat) : TrunBox :=
  { trun with
      sample_count := count
      sample_durations := trun.sample_durations ++ [sample.duration]
      sample_sizes := trun.sample_sizes ++ [sample.bytes.length]
      sample_cts := trun.sample_cts ++ [i32bits sample.rendering_offset]
      sample_flags := trun.sample_flags ++ [stf] }

/-- The composition-offset step of `write_sample`: re-derive the
offsets-present flag from the whole run after every append. -/
def CmafChunkWriter.trunCtsStep (trun : TrunBox) : TrunBox :=
  if trun.sample_cts.any (· ≠ 0) then
    { trun with flags := trun.flags ||| TrunBox.FLAG_SAMPLE_CTS }
  else trun

/-- `CmafChunkWriter::write_sample` (the state after the call; the returned
running duration is `(w.traf.trun).duration`), as the source's sequence of
in-place updates: push the payload, seed the decode time from the first
sample, `get_or_insert` the run, the first-sample-flags step, the
per-sample append, the composition-offset step. -/
def CmafChunkWriter.write_sample (w : CmafChunkWriter) (sample : Mp4Sample) :
    CmafChunkWriter :=
  let samples := w.samples ++ [sample.bytes]
  let tfdt := match w.traf.tfdt with
    | some d => some d
    | none => some ⟨1, 0, sample.start_time⟩
  let stf := CmafChunkWriter.sample_trun_flags sample
  let has_first_sample_flags : Bool := some stf ≠ w.traf.tfhd.default_sample_flags
  let trun := w.traf.trun.getD CmafChunkWriter.newTrun
  let trun := CmafChunkWriter.trunFirstFlagsStep trun stf
    (has_first_sample_flags && (samples.length == 1))
  let trun := CmafChunkWriter.trunPushStep trun samples.length sample stf
  let trun := CmafChunkWriter.trunCtsStep trun
  { w with
      samples := samples
      traf := { w.traf with tfdt := tfdt, trun := some trun } }

/-- `CmafChunkWriter::add_emsg` (the emsg represented by its bytes). -/
def CmafChunkWriter.add_emsg (w : CmafChunkWriter) (emsg : List Nat) :
    CmafChunkWriter :=
  { w with emsgs := w.emsgs ++ [emsg] }

/-- The moof built by `write_end` before the offset patch: the accumulated
mfhd (with the sequence number assigned) and the single traf. -/
def CmafChunkWriter.moofProbe (w : CmafChunkWriter) (sequence_number : Nat) :
    MoofBox :=
  ⟨{ w.mfhd with sequence_number := sequence_number }, [w.traf]⟩

/-- The moof written by `write_end`: the probe with the run's data offset
patched to `moof_size + HEADER_SIZE` (cast to i32). -/
def CmafChunkWriter.moofPatched (w : CmafChunkWriter) (sequence_number : Nat) :
    MoofBox :=
  let moof := w.moofProbe sequence_number
  let moof_size := moof.get_size
  { moof with
      trafs := match moof.trafs with
        | [] => []
        | first :: rest =>
          { first with
              trun := first.trun.map
                (fun t => { t with
                  data_offset := some (i32val (moof_size + HEADER_SIZE)) }) } :: rest }

/-- `CmafChunkWriter::write_end`: the bytes emitted to the sink — pending
emsg boxes, the pending prft box, the patched moof, the mdat header, then
the concatenated sample payloads. -/
def CmafChunkWriter.write_end (w : CmafChunkWriter) (sequence_number : Nat) :
    List Nat :=
  let mdat_size := (w.samples.map List.length).sum
  w.emsgs.flatten ++
  (match w.prft with | some p => p.write | none => []) ++
  (w.moofPatched sequence_number).write ++
  boxHeader mdatFourcc (HEADER_SIZE + mdat_size) ++
  w.samples.flatten

/-! ## CMAF header writer (src/cmaf/cmaf_header_writer.rs)

The track subtree types (trak/tkhd/mdia/mdhd, track.rs, mvhd.rs, moov.rs,
trex.rs) are not among the examined sources; they are modelled from the
spec with exactly the fields the header writer's duration logic reads and
writes.  `FtypBox` serialization (emitted by `write_start`) carries no
state the claims mention and is elided. -/

/-- The slice of `TrackConfig` the duration logic uses. -/
structure TrackConfig where
  timescale : Nat
  deriving Repr, DecidableEq

structure MdhdBox where
  timescale : Nat
  duration : Nat
  deriving Repr, DecidableEq

structure MdiaBox where
  mdhd : MdhdBox
  deriving Repr, DecidableEq

structure TkhdBox where
  duration : Nat
  deriving Repr, DecidableEq

structure TrakBox where
  tkhd : TkhdBox
  mdia : MdiaBox
  deriving Repr, DecidableEq

structure MvhdBox where
  version : Nat
  timescale : Nat
  duration : Nat
  next_track_id : Nat
  deriving Repr, DecidableEq

structure TrexBox where
  version : Nat
  flags : Nat
  track_id : Nat
  default_sample_description_index : Nat
  default_sample_duration : Nat
  default_sample_size : Nat
  default_sample_flags : Nat
  deriving Repr, DecidableEq

structure MoovBox where
  mvhd : MvhdBox
  traks : List TrakBox
  trex : List TrexBox
  deriving Repr, DecidableEq

/-- Modelled from the spec: `Mp4TrackWriter` (track.rs is not among the
examined sources) — per the spec it owns the track's box subtree, built
eagerly except for the final duration, and a sample table; the model keeps
the media timescale and the table's sample durations. -/
structure Mp4TrackWriter where
  track_id : Nat
  mdhdTimescale : Nat
  sampleDurations : List Nat
  deriving Repr, DecidableEq

/-- Modelled from the spec: `Mp4TrackWriter::new`. -/
def Mp4TrackWriter.new (track_id : Nat) (config : TrackConfig) : Mp4TrackWriter :=
  ⟨track_id, config.timescale, []⟩

/-- Modelled from the spec: `Mp4TrackWriter::write_end` returns the track's
trak subtree with its duration not yet final. -/
def Mp4TrackWriter.write_end (t : Mp4TrackWriter) : TrakBox :=
  ⟨⟨0⟩, ⟨⟨t.mdhdTimescale, 0⟩⟩⟩

/-- Modelled from the spec: the track's accumulated media duration computed
from its sample table — the spec-side comparison definition for the
header-writer duration claim, following the spec's words. -/
def Mp4TrackWriter.accumulatedMediaDuration (t : Mp4TrackWriter) : Nat :=
  t.sampleDurations.sum

/-- The header writer's state: its track list, the movie timescale, and the
caller-supplied total duration in whole seconds (`Duration::as_secs` of the
`write_start` argument, 0 when absent). -/
structure CmafHeaderWriter where
  tracks : List Mp4TrackWriter
  timescale : Nat
  durationSecs : Nat
  deriving Repr, DecidableEq

/-- `CmafHeaderWriter::write_start` (the emitted ftyp box elided). -/
def CmafHeaderWriter.write_start (timescale : Nat) (durationSecs : Option Nat) :
    CmafHeaderWriter :=
  ⟨[], timescale, durationSecs.getD 0⟩

/-- `CmafHeaderWriter::add_track`: the next sequential 1-based track id. -/
def CmafHeaderWriter.add_track (w : CmafHeaderWriter) (config : TrackConfig) :
    CmafHeaderWriter :=
  { w with tracks := w.tracks ++ [Mp4TrackWriter.new (w.tracks.length + 1) config] }

/-- `CmafHeaderWriter::media_duration`. -/
def CmafHeaderWriter.media_duration (w : CmafHeaderWriter) : Nat :=
  w.durationSecs * w.timescale

/-- `CmafHeaderWriter::write_end`: the moov box it assembles and writes —
every track header's duration is set to `media_duration`, the media header
duration to seconds times the track timescale, one neutral trex per track,
`next_track_id = 2`, and the movie header upgraded to version 1 when the
duration exceeds the u32 range. -/
def CmafHeaderWriter.write_end (w : CmafHeaderWriter) : MoovBox :=
  let duration := w.media_duration
  { mvhd :=
      { version := if duration > 4294967295 then 1 else 0
        timescale := w.timescale
        duration := duration
        next_track_id := 2 }
    traks := w.tracks.map (fun tr =>
      let trak := tr.write_end
      { trak with
          tkhd := { trak.tkhd with duration := duration }
          mdia := { trak.mdia with mdhd :=
            { trak.mdia.mdhd with
                duration := w.durationSecs * trak.mdia.mdhd.timescale } } })
    trex := (List.range w.tracks.length).map
      (fun i => ⟨0, 0, i + 1, 1, 0, 0, 0⟩) }

end Mp4

/-- C9: writing a protected track-encryption box with per-sample IV size 0
but no constant IV size and no constant IV returns a data-integrity error
(not a panic), and the bytes emitted are exactly the box header and the
fixed fields — nothing from the constant-IV branch. -/
theorem tenc_write_missing_constant_iv_errors (t : Mp4.TencBox)
    (hp : t.default_is_protected = true)
    (hiv : t.default_per_sample_iv_size = 0)
    (hcs : t.default_constant_iv_size = none)
    (hci : t.default_constant_iv = none)
    (hkid : t.default_kid.length = 16) :
    t.write_box.2 =
      .error (.invalidData "default_constant_iv_size and default_constant_iv must be set when default_is_protected is true and default_per_sample_iv_size is 0") ∧
    t.write_box.1 = t.fixedFields ∧
    t.write_box.1.length =
      Mp4.HEADER_SIZE + Mp4.HEADER_EXT_SIZE + 4 + 16 := by
  have hbranch : (t.default_is_protected ∧ t.default_per_sample_iv_size = 0) := by
    exact ⟨hp, hiv⟩
  simp only [Mp4.TencBox.write_box, hcs, hci, hp, hiv, if_pos hbranch]
  refine ⟨rfl, rfl, ?_⟩
  simp [Mp4.TencBox.fixedFields, Mp4.boxHeader, Mp4.extHeader, Mp4.be32,
    hkid, Mp4.HEADER_SIZE, Mp4.HEADER_EXT_SIZE]

/-- Witness for C9: a protected box with per-sample IV size 0 and no
constant IV. -/
theorem tenc_write_missing_constant_iv_errors_witness :
    (Mp4.TencBox.write_box ⟨none, none, true, 0, List.replicate 16 0, none, none⟩).2 =
      .error (.invalidData "default_constant_iv_size and default_constant_iv must be set when default_is_protected is true and default_per_sample_iv_size is 0") ∧
    (Mp4.TencBox.write_box ⟨none, none, true, 0, List.replicate 16 0, none, none⟩).1 =
      Mp4.TencBox.fixedFields ⟨none, none, true, 0, List.replicate 16 0, none, none⟩ ∧
    (Mp4.TencBox.write_box ⟨none, none, true, 0, List.replicate 16 0, none, none⟩).1.length =
      Mp4.HEADER_SIZE + Mp4.HEADER_EXT_SIZE + 4 + 16 :=
  tenc_write_missing_constant_iv_errors _ rfl rfl rfl rfl (by decide)

/-- C4: for each value in the boundary set, encoding with `write_desc` and
decoding the produced bytes with `read_desc` is the identity, and the
encoder emits the minimal number of length bytes (1 for values up to 127,
2 up to 16383, 3 up to 0x1FFFFF, else 4). -/
theorem descriptor_length_roundtrip_boundaries :
    ∀ tag < 256, ∀ v ∈ [0, 127, 128, 16383, 16384, 0x1FFFFF, 0x200000],
      Mp4.write_desc tag v = .ok (Mp4.descOut tag v, (Mp4.descOut tag v).length) ∧
      Mp4.read_desc (Mp4.descOut tag v) 0 = .ok ((tag, v), (Mp4.descOut tag v).length) ∧
      Mp4.size_of_length v =
        (if v ≤ 127 then 1 else if v ≤ 16383 then 2
         else if v ≤ 0x1FFFFF then 3 else 4) := by
  set_option maxRecDepth 40000 in decide

/-- Witness for C4 at tag 3, value 16384. -/
theorem descriptor_length_roundtrip_boundaries_witness :
    Mp4.write_desc 3 16384 =
        .ok (Mp4.descOut 3 16384, (Mp4.descOut 3 16384).length) ∧
      Mp4.read_desc (Mp4.descOut 3 16384) 0 =
        .ok ((3, 16384), (Mp4.descOut 3 16384).length) ∧
      Mp4.size_of_length 16384 =
        (if 16384 ≤ 127 then 1 else if 16384 ≤ 16383 then 2
         else if 16384 ≤ 0x1FFFFF then 3 else 4) :=
  descriptor_length_roundtrip_boundaries 3 (by decide) 16384 (by decide)

/-- C5: the encoder does not reject values beyond the 28-bit range of the
4-byte base-128 encoding: at 0x10000000 `write_desc` succeeds and emits a
truncated length whose decoding is 0, instead of failing. -/
theorem write_desc_truncates_out_of_range :
    Mp4.write_desc 3 0x10000000 =
      .ok ([3, 0x80, 0x80, 0x80, 0x00], 5) ∧
    Mp4.read_desc [3, 0x80, 0x80, 0x80, 0x00] 0 = .ok ((3, 0), 5) := by
  constructor <;> decide

namespace Mp4

theorem byte1_hi : ∀ p < 8, ∀ l < 32, (((p <<< 5) &&& 255) ||| l) >>> 5 = p := by decide

theorem byte1_lo : ∀ p < 8, ∀ l < 32, (((p <<< 5) &&& 255) ||| l) &&& 31 = l := by decide

theorem byte2_bits : ∀ t ∈ [0, 1], ∀ d1 ∈ [0, 1], ∀ d2 ∈ [0, 1], ∀ m ∈ [0, 1],
    ∀ sx ∈ [0, 1], ∀ sy ∈ [0, 1], ∀ c ∈ [0, 1, 2, 3],
    byte2of t d1 d2 m sx sy c >>> 7 = t ∧
    (byte2of t d1 d2 m sx sy c >>> 6) &&& 1 = d1 ∧
    (byte2of t d1 d2 m sx sy c >>> 5) &&& 1 = d2 ∧
    (byte2of t d1 d2 m sx sy c >>> 4) &&& 1 = m ∧
    (byte2of t d1 d2 m sx sy c >>> 3) &&& 1 = sx ∧
    (byte2of t d1 d2 m sx sy c >>> 2) &&& 1 = sy ∧
    byte2of t d1 d2 m sx sy c &&& 3 = c := by
  decide

theorem mem01_of_lt_two {n : Nat} (h : n < 2) : n ∈ [0, 1] := by
  interval_cases n <;> simp

theorem mem0123_of_lt_four {n : Nat} (h : n < 4) : n ∈ [0, 1, 2, 3] := by
  interval_cases n <;> simp

/-- General round-trip of the AV1 configuration box for values whose
fields fit their encoded widths and carry no presentation delay. -/
theorem av1c_rt (a : Av1CBox) (h1 : a.profile < 8) (h2 : a.level_idx < 32)
    (h3 : a.tier < 2) (h4 : a.subsampling_x < 2) (h5 : a.subsampling_y < 2)
    (h6 : a.chroma_sample_position < 4)
    (h7 : a.bit_depth = 8 ∨ a.bit_depth = 10 ∨ a.bit_depth = 12)
    (h8 : a.initial_presentation_delay_minus_one = none) :
    Av1CBox.read_box a.write_box 8 a.box_size = .ok (a, a.box_size) := by
  obtain ⟨t, pr, lv, bd, mo, sx, sy, cp, dl, sq⟩ := a
  simp only at h1 h2 h3 h4 h5 h6 h7 h8
  subst h8
  have hb2 := byte2_bits t (mem01_of_lt_two h3)
    (if bd > 8 then 1 else 0) (by split <;> simp)
    (if bd = 12 then 1 else 0) (by split <;> simp)
    (if mo then 1 else 0) (by split <;> simp)
    sx (mem01_of_lt_two h4)
    sy (mem01_of_lt_two h5)
    cp (mem0123_of_lt_four h6)
  obtain ⟨e1, e2, e3, e4, e5, e6, e7⟩ := hb2
  have hbyte2 : Av1CBox.byte2 ⟨t, pr, lv, bd, mo, sx, sy, cp, none, sq⟩ =
      byte2of t (if bd > 8 then 1 else 0) (if bd = 12 then 1 else 0)
        (if mo then 1 else 0) sx sy cp := rfl
  rw [← hbyte2] at e1 e2 e3 e4 e5 e6 e7
  simp only [Av1CBox.read_box, Av1CBox.write_box, Av1CBox.box_size, boxHeader,
    be32, box_start, skip_bytes_to, rdBytes, HEADER_SIZE,
    List.cons_append, List.nil_append, List.append_assoc]
  simp only [List.drop_succ_cons, List.drop_zero, List.take_succ_cons,
    List.take_zero, List.length_cons, List.length_nil]
  have hL : 8 - 8 + (8 + 4 + sq.length) - (8 + 4) = sq.length := by omega
  simp only [if_true, bind, Except.bind, hL, List.drop_succ_cons, List.drop_zero,
    List.take_length, List.length_cons]
  have hpos : 8 - 8 + (8 + 4 + sq.length) = 8 + 4 + sq.length := by omega
  simp only [List.getD, List.get?_cons_zero, List.get?_cons_succ,
    List.getElem?_cons_zero, List.getElem?_cons_succ,
    Option.getD_some, hpos, Except.ok.injEq, Prod.mk.injEq, Av1CBox.mk.injEq]
  refine ⟨⟨e1, byte1_hi _ h1 _ h2, byte1_lo _ h1 _ h2, ?_, ?_, e5, e6, e7, ?_⟩, trivial⟩
  · simp only [e2, e3]
    rcases h7 with h | h | h <;> rw [h] <;> norm_num
  · simp only [e4]
    cases mo <;> simp
  · norm_num

set_option maxRecDepth 8192

/-- General round-trip of the colour box (both nclx and prof forms). -/
theorem colr_rt (c : ColrBox)
    (hwf : match c.color_config with
      | .nclx cfg => cfg.color_primaries < 65536 ∧
          cfg.transfer_characteristics < 65536 ∧ cfg.matrix_coefficients < 65536
      | .prof _ => True) :
    ColrBox.read_box c.write_box 8 c.get_size = .ok (c, c.get_size) := by
  obtain ⟨cc⟩ := c
  cases cc with
  | nclx cfg =>
    obtain ⟨p, t, m, fr⟩ := cfg
    obtain ⟨hp, ht, hm⟩ := hwf
    simp only [ColrBox.read_box, ColrBox.write_box, ColrBox.get_size,
      Color.get_size, Color.tagBytes, boxHeader, be32, be16, box_start,
      skip_bytes_to, rdBytes, rdU16, rdU8, HEADER_SIZE,
      List.cons_append, List.nil_append, List.append_assoc]
    simp only [List.drop_succ_cons, List.drop_zero, List.take_succ_cons,
      List.take_zero, List.length_cons, List.length_nil, if_true,
      bind, Except.bind, List.getElem?_cons_zero, List.getElem?_cons_succ]
    rw [if_neg (by decide)]
    simp only [Except.ok.injEq, Prod.mk.injEq, ColrBox.mk.injEq,
      Color.nclx.injEq, ColorConfig.mk.injEq]
    simp only at hp ht hm
    refine ⟨⟨by omega, by omega, by omega,
      by cases fr <;> simp [Nat.shiftRight_eq_div_pow]⟩, by norm_num⟩
  | prof icc =>
    simp only [ColrBox.read_box, ColrBox.write_box, ColrBox.get_size,
      Color.get_size, Color.tagBytes, boxHeader, be32, box_start,
      skip_bytes_to, rdBytes, HEADER_SIZE,
      List.cons_append, List.nil_append, List.append_assoc]
    simp only [List.drop_succ_cons, List.drop_zero, List.take_succ_cons,
      List.take_zero, List.length_cons, List.length_nil, if_true,
      bind, Except.bind]
    have hlen : 8 + 4 + icc.length - (8 + 4) = icc.length := by omega
    simp only [hlen, List.take_length]
    simp

/-- The AV1 configuration writer emits exactly its declared size. -/
theorem av1c_write_length (a : Av1CBox) : a.write_box.length = a.box_size := by
  simp [Av1CBox.write_box, Av1CBox.box_size, boxHeader, be32, HEADER_SIZE]
  omega

/-- The colour-box writer emits exactly its declared size. -/
theorem colr_write_length (c : ColrBox) : c.write_box.length = c.get_size := by
  obtain ⟨cc⟩ := c
  cases cc <;>
    simp [ColrBox.write_box, ColrBox.get_size, Color.get_size, Color.tagBytes,
      boxHeader, be32, be16, HEADER_SIZE] <;>
    omega

end Mp4

/-- C2 (amended): for Av1CBox values whose fields fit their encoded bit
widths (profile < 8, level_idx < 32, tier < 2, subsampling flags < 2,
chroma sample position < 4, bit depth in 8/10/12) and whose initial
presentation delay is absent, and for all ColrBox values with 16-bit nclx
fields, write_box followed by read_box on the produced bytes (after the
8-byte header) yields the original value, and the declared size equals the
number of bytes written. -/
theorem av1c_colr_write_read_roundtrip (a : Mp4.Av1CBox) (c : Mp4.ColrBox)
    (h1 : a.profile < 8) (h2 : a.level_idx < 32) (h3 : a.tier < 2)
    (h4 : a.subsampling_x < 2) (h5 : a.subsampling_y < 2)
    (h6 : a.chroma_sample_position < 4)
    (h7 : a.bit_depth = 8 ∨ a.bit_depth = 10 ∨ a.bit_depth = 12)
    (h8 : a.initial_presentation_delay_minus_one = none)
    (hc : match c.color_config with
      | .nclx cfg => cfg.color_primaries < 65536 ∧
          cfg.transfer_characteristics < 65536 ∧ cfg.matrix_coefficients < 65536
      | .prof _ => True) :
    (Mp4.Av1CBox.read_box a.write_box 8 a.box_size = .ok (a, a.box_size) ∧
      a.write_box.length = a.box_size) ∧
    (Mp4.ColrBox.read_box c.write_box 8 c.get_size = .ok (c, c.get_size) ∧
      c.write_box.length = c.get_size) :=
  ⟨⟨Mp4.av1c_rt a h1 h2 h3 h4 h5 h6 h7 h8, Mp4.av1c_write_length a⟩,
    ⟨Mp4.colr_rt c hc, Mp4.colr_write_length c⟩⟩

/-- Witness for C2 (amended) at the av01 unit-test value and an nclx colour
box. -/
theorem av1c_colr_write_read_roundtrip_witness :
    (Mp4.Av1CBox.read_box
        (Mp4.Av1CBox.write_box ⟨0, 0, 8, 8, false, 1, 1, 0, none, [10, 11]⟩) 8
        (Mp4.Av1CBox.box_size ⟨0, 0, 8, 8, false, 1, 1, 0, none, [10, 11]⟩) =
      .ok (⟨0, 0, 8, 8, false, 1, 1, 0, none, [10, 11]⟩,
        Mp4.Av1CBox.box_size ⟨0, 0, 8, 8, false, 1, 1, 0, none, [10, 11]⟩) ∧
      (Mp4.Av1CBox.write_box ⟨0, 0, 8, 8, false, 1, 1, 0, none, [10, 11]⟩).length =
        Mp4.Av1CBox.box_size ⟨0, 0, 8, 8, false, 1, 1, 0, none, [10, 11]⟩) ∧
    (Mp4.ColrBox.read_box
        (Mp4.ColrBox.write_box ⟨.nclx ⟨9, 16, 9, false⟩⟩) 8
        (Mp4.ColrBox.get_size ⟨.nclx ⟨9, 16, 9, false⟩⟩) =
      .ok (⟨.nclx ⟨9, 16, 9, false⟩⟩, Mp4.ColrBox.get_size ⟨.nclx ⟨9, 16, 9, false⟩⟩) ∧
      (Mp4.ColrBox.write_box ⟨.nclx ⟨9, 16, 9, false⟩⟩).length =
        Mp4.ColrBox.get_size ⟨.nclx ⟨9, 16, 9, false⟩⟩) :=
  av1c_colr_write_read_roundtrip _ _ (by decide) (by decide) (by decide)
    (by decide) (by decide) (by decide) (by decide) (by decide) (by decide)

/-- C2 counterexample: an Av1CBox carrying an initial presentation delay
does not survive the write/read round trip — the writer never emits the
delay (source TODO), so reading back yields a different value. -/
theorem av1c_roundtrip_fails_on_presentation_delay :
    Mp4.Av1CBox.read_box
        (Mp4.Av1CBox.write_box ⟨0, 0, 8, 8, false, 1, 1, 0, some 0, []⟩) 8
        (Mp4.Av1CBox.box_size ⟨0, 0, 8, 8, false, 1, 1, 0, some 0, []⟩) ≠
      .ok (⟨0, 0, 8, 8, false, 1, 1, 0, some 0, []⟩,
        Mp4.Av1CBox.box_size ⟨0, 0, 8, 8, false, 1, 1, 0, some 0, []⟩) := by
  decide

/-- C3 counterexample: a sinf box of declared size 30 whose second child
declares size 20 with only 10 bytes remaining inside the parent.  The
check `s > size` compares against the parent's total size, so 20 passes;
the child parse reads the 4 bytes at positions 28..31 — past the parent's
end at 30 — and the whole parse succeeds instead of failing with a
data-integrity error. -/
theorem sinf_child_exceeding_remaining_is_accepted :
    Mp4.SinfBox.read_box
      [0, 0, 0, 30, 115, 105, 110, 102, 0, 0, 0, 12, 102, 114, 109, 97,
       97, 118, 99, 49, 0, 0, 0, 20, 102, 114, 109, 97, 88, 89, 90, 87] 8 30 =
    .ok (⟨⟨Mp4.fourcc 88 89 90 87⟩, none, none⟩, 30) := by decide

/-- C3 (amended): at every child position of the sinf reader loop, a child
header whose declared size exceeds the parent's declared *total* size makes
the parse fail with a data-integrity error; a child size that exceeds only
the bytes remaining inside the parent is not rejected (see the
counterexample, where the parse reads past the parent's declared end). -/
theorem sinf_child_size_exceeding_parent_errors (b : List Nat)
    (size end_ : Nat) (frma : Option Mp4.FrmaBox) (schi : Option Mp4.SchiBox)
    (schm : Option Mp4.SchmBox) (cur fuel : Nat) (name s p : Nat)
    (h1 : cur < end_)
    (hdr : Mp4.readBoxHeader b cur = .ok ((name, s), p))
    (hs : s > size) :
    Mp4.sinfLoop b size end_ frma schi schm cur (fuel + 1) =
      .error (.invalidData "sinf box contains a box with a larger size than it") := by
  simp only [Mp4.sinfLoop, if_pos h1, hdr, bind, Except.bind, if_pos hs]

/-- Witness for C3 (amended): an oversized child at the third child
position of a parent of declared size 44. -/
theorem sinf_child_size_exceeding_parent_errors_witness :
    Mp4.sinfLoop
      [0, 0, 0, 44, 115, 105, 110, 102, 0, 0, 0, 12, 102, 114, 109, 97,
       97, 118, 99, 49, 0, 0, 0, 12, 1, 1, 1, 1, 0, 0, 0, 0,
       0, 0, 0, 99, 102, 114, 109, 97, 0, 0, 0, 0]
      44 44 (some ⟨Mp4.fourcc 97 118 99 49⟩) none none 32 12 =
      .error (.invalidData "sinf box contains a box with a larger size than it") :=
  sinf_child_size_exceeding_parent_errors _ 44 44 _ none none 32 11
    (Mp4.fourcc 102 114 109 97) 99 40 (by decide) (by decide) (by decide)

namespace Mp4

theorem write_sample_trun_eq (w : CmafChunkWriter) (x : Mp4Sample) :
    (w.write_sample x).traf.trun = some
      (CmafChunkWriter.trunCtsStep (CmafChunkWriter.trunPushStep
        (CmafChunkWriter.trunFirstFlagsStep
          (w.traf.trun.getD CmafChunkWriter.newTrun)
          (CmafChunkWriter.sample_trun_flags x)
          ((some (CmafChunkWriter.sample_trun_flags x) ≠
              w.traf.tfhd.default_sample_flags : Bool) &&
            ((w.samples ++ [x.bytes]).length == 1)))
        (w.samples ++ [x.bytes]).length x
        (CmafChunkWriter.sample_trun_flags x))) := rfl

theorem trunFirstFlagsStep_flags (t : TrunBox) (s : Nat) (c : Bool) :
    (CmafChunkWriter.trunFirstFlagsStep t s c).flags =
      (if c then t.flags ||| TrunBox.FLAG_FIRST_SAMPLE_FLAGS else t.flags) := by
  cases c <;> simp [CmafChunkWriter.trunFirstFlagsStep]

theorem trunFirstFlagsStep_first (t : TrunBox) (s : Nat) (c : Bool) :
    (CmafChunkWriter.trunFirstFlagsStep t s c).first_sample_flags =
      (if c then some (t.first_sample_flags.getD s) else t.first_sample_flags) := by
  cases c <;> simp [CmafChunkWriter.trunFirstFlagsStep]

theorem trunFirstFlagsStep_cts (t : TrunBox) (s : Nat) (c : Bool) :
    (CmafChunkWriter.trunFirstFlagsStep t s c).sample_cts = t.sample_cts := by
  cases c <;> simp [CmafChunkWriter.trunFirstFlagsStep]

theorem trunPushStep_flags (t : TrunBox) (n : Nat) (x : Mp4Sample) (s : Nat) :
    (CmafChunkWriter.trunPushStep t n x s).flags = t.flags := rfl

theorem trunPushStep_first (t : TrunBox) (n : Nat) (x : Mp4Sample) (s : Nat) :
    (CmafChunkWriter.trunPushStep t n x s).first_sample_flags =
      t.first_sample_flags := rfl

theorem trunPushStep_cts (t : TrunBox) (n : Nat) (x : Mp4Sample) (s : Nat) :
    (CmafChunkWriter.trunPushStep t n x s).sample_cts =
      t.sample_cts ++ [i32bits x.rendering_offset] := rfl

theorem trunCtsStep_flags (t : TrunBox) :
    (CmafChunkWriter.trunCtsStep t).flags =
      (if t.sample_cts.any (· ≠ 0) then t.flags ||| TrunBox.FLAG_SAMPLE_CTS
       else t.flags) := by
  unfold CmafChunkWriter.trunCtsStep
  by_cases h : t.sample_cts.any (· ≠ 0) = true
  · rw [if_pos h, if_pos h]
  · rw [if_neg h, if_neg h]

theorem trunCtsStep_first (t : TrunBox) :
    (CmafChunkWriter.trunCtsStep t).first_sample_flags = t.first_sample_flags := by
  unfold CmafChunkWriter.trunCtsStep
  by_cases h : t.sample_cts.any (· ≠ 0) = true
  · rw [if_pos h]
  · rw [if_neg h]

theorem trunCtsStep_cts (t : TrunBox) :
    (CmafChunkWriter.trunCtsStep t).sample_cts = t.sample_cts := by
  unfold CmafChunkWriter.trunCtsStep
  by_cases h : t.sample_cts.any (· ≠ 0) = true
  · rw [if_pos h]
  · rw [if_neg h]


end Mp4

namespace Mp4

theorem write_start_trun (track_id : Nat) (config : CmafChunkConfig) :
    (CmafChunkWriter.write_start track_id config).traf.trun = none := rfl

theorem write_start_default_flags (track_id : Nat) (config : CmafChunkConfig) :
    (CmafChunkWriter.write_start track_id config).traf.tfhd.default_sample_flags =
      some config.default_sample_flags := rfl

theorem write_start_samples (track_id : Nat) (config : CmafChunkConfig) :
    (CmafChunkWriter.write_start track_id config).samples = [] := rfl

theorem newTrun_flags : CmafChunkWriter.newTrun.flags = 769 := by decide

theorem newTrun_first : CmafChunkWriter.newTrun.first_sample_flags = none := rfl

theorem newTrun_cts : CmafChunkWriter.newTrun.sample_cts = [] := rfl

set_option maxHeartbeats 1000000

/-- C6: for a fragment writer started with default sample flags F, after
writing exactly one sample the run carries a first-sample-flags override
exactly when the sample's derived flags differ from F: the override field
is absent and the flag bit clear when they are equal, and the field holds
the derived value (with the bit set) when they differ. -/
theorem first_sample_flags_elision (config : CmafChunkConfig) (track_id : Nat)
    (sample : Mp4Sample) :
    ((((CmafChunkWriter.write_start track_id config).write_sample
        sample).traf.trun.getD TrunBox.default).first_sample_flags =
      (if CmafChunkWriter.sample_trun_flags sample = config.default_sample_flags
       then none else some (CmafChunkWriter.sample_trun_flags sample))) ∧
    ((((CmafChunkWriter.write_start track_id config).write_sample
        sample).traf.trun.getD TrunBox.default).flags &&&
        TrunBox.FLAG_FIRST_SAMPLE_FLAGS = 0 ↔
      CmafChunkWriter.sample_trun_flags sample = config.default_sample_flags) := by
  rw [write_sample_trun_eq]
  simp only [Option.getD_some, trunCtsStep_flags, trunCtsStep_first,
    trunPushStep_flags, trunPushStep_first, trunPushStep_cts,
    trunFirstFlagsStep_flags, trunFirstFlagsStep_first, trunFirstFlagsStep_cts]
  rw [write_start_trun, write_start_default_flags, write_start_samples]
  simp only [Option.getD_none, newTrun_flags, newTrun_first, newTrun_cts,
    List.nil_append, List.length_cons, List.length_nil, List.any_cons,
    List.any_nil, TrunBox.FLAG_FIRST_SAMPLE_FLAGS, TrunBox.FLAG_SAMPLE_CTS]
  by_cases h : CmafChunkWriter.sample_trun_flags sample = config.default_sample_flags
  · simp [h]
    split <;> decide
  · simp [h]
    split <;> decide

end Mp4

namespace Mp4

set_option maxHeartbeats 1000000

theorem chunk_fold_spec (config : CmafChunkConfig) (track_id : Nat)
    (samples : List Mp4Sample) :
    ((samples.foldl CmafChunkWriter.write_sample
        (CmafChunkWriter.write_start track_id config)).traf.trun = none →
      samples = []) ∧
    ∀ t, (samples.foldl CmafChunkWriter.write_sample
        (CmafChunkWriter.write_start track_id config)).traf.trun = some t →
      t.sample_cts = samples.map (fun s => i32bits s.rendering_offset) ∧
      (t.flags = 769 ∨ t.flags = 773 ∨ t.flags = 2817 ∨ t.flags = 2821) ∧
      (t.flags &&& 2048 ≠ 0 ↔ t.sample_cts.any (fun c => c ≠ 0) = true) := by
  induction samples using List.reverseRecOn with
  | nil =>
    refine ⟨fun _ => rfl, fun t ht => ?_⟩
    rw [List.foldl_nil, write_start_trun] at ht
    simp at ht
  | append_singleton xs x ih =>
    rw [List.foldl_append, List.foldl_cons, List.foldl_nil]
    refine ⟨fun hnone => ?_, fun t ht => ?_⟩
    · rw [write_sample_trun_eq] at hnone
      simp at hnone
    · rw [write_sample_trun_eq] at ht
      injection ht with ht
      subst ht
      rcases hb : (xs.foldl CmafChunkWriter.write_sample
          (CmafChunkWriter.write_start track_id config)).traf.trun with _ | t0
      · have hxs := ih.1 hb
        subst hxs
        rw [List.foldl_nil] at hb ⊢
        simp only [hb, Option.getD_none, trunCtsStep_cts, trunPushStep_cts,
          trunFirstFlagsStep_cts, trunCtsStep_flags, trunPushStep_flags,
          trunFirstFlagsStep_flags, newTrun_flags, newTrun_cts,
          List.nil_append, List.map_cons, List.map_nil, List.any_cons,
          List.any_nil, TrunBox.FLAG_FIRST_SAMPLE_FLAGS, TrunBox.FLAG_SAMPLE_CTS]
        refine ⟨by simp, ?_⟩
        by_cases hc : i32bits x.rendering_offset = 0 <;>
          simp [hc] <;> split <;> simp_all <;> decide
      · obtain ⟨hcts, hfl, hiff⟩ := ih.2 t0 hb
        simp only [hb, Option.getD_some, trunCtsStep_cts, trunPushStep_cts,
          trunFirstFlagsStep_cts, trunCtsStep_flags, trunPushStep_flags,
          trunFirstFlagsStep_flags, TrunBox.FLAG_FIRST_SAMPLE_FLAGS,
          TrunBox.FLAG_SAMPLE_CTS]
        refine ⟨by rw [hcts]; simp, ?_⟩
        by_cases hA : ((t0.sample_cts ++ [i32bits x.rendering_offset]).any
            (fun c => c ≠ 0)) = true
        · simp only [hA, if_true]
          rcases hfl with hf | hf | hf | hf <;> rw [hf] <;>
            split <;> simp_all <;> decide
        · simp only [hA, Bool.false_eq_true, if_false]
          have hAold : (t0.sample_cts.any (fun c => c ≠ 0)) ≠ true := by
            intro hh
            apply hA
            rw [List.any_append, hh]
            simp
          have hflags0 : t0.flags &&& 2048 = 0 := by
            by_contra hne
            exact hAold (hiff.mp hne)
          rcases hfl with hf | hf | hf | hf <;> rw [hf] at hflags0 ⊢ <;>
            first
            | (exfalso; revert hflags0; decide)
            | (split <;> simp_all <;> decide)

end Mp4

namespace Mp4

theorem i32bits_ne_zero {v : Int} (hlo : -2147483648 ≤ v) (hhi : v < 2147483648) :
    i32bits v ≠ 0 ↔ v ≠ 0 := by
  simp only [i32bits]
  have h0 : 0 ≤ v.emod 4294967296 := Int.emod_nonneg v (by norm_num)
  constructor
  · intro h hv
    apply h
    rw [hv]
    rfl
  · intro hv h
    apply hv
    have h1 : v.emod 4294967296 = 0 := by omega
    rcases Int.dvd_of_emod_eq_zero h1 with ⟨k, hk⟩
    omega

/-- C7: after every write_sample call, the run's composition-offset-present
flag is set iff at least one sample appended so far (within i32 range) has
a non-zero composition offset. -/
theorem composition_offset_flag (config : CmafChunkConfig) (track_id : Nat)
    (samples : List Mp4Sample)
    (hr : ∀ s ∈ samples, -2147483648 ≤ s.rendering_offset ∧
      s.rendering_offset < 2147483648)
    (hne : samples ≠ []) :
    ∃ t, (samples.foldl CmafChunkWriter.write_sample
        (CmafChunkWriter.write_start track_id config)).traf.trun = some t ∧
      (t.flags &&& TrunBox.FLAG_SAMPLE_CTS ≠ 0 ↔
        ∃ s ∈ samples, s.rendering_offset ≠ 0) := by
  rcases h : (samples.foldl CmafChunkWriter.write_sample
      (CmafChunkWriter.write_start track_id config)).traf.trun with _ | t
  · exact absurd ((chunk_fold_spec config track_id samples).1 h) hne
  · obtain ⟨hcts, _, hiff⟩ := (chunk_fold_spec config track_id samples).2 t h
    refine ⟨t, rfl, ?_⟩
    rw [TrunBox.FLAG_SAMPLE_CTS, hiff, hcts]
    simp only [List.any_eq_true, decide_eq_true_eq, List.mem_map]
    constructor
    · rintro ⟨c, ⟨s, hs, rfl⟩, hzero⟩
      exact ⟨s, hs, (i32bits_ne_zero (hr s hs).1 (hr s hs).2).mp hzero⟩
    · rintro ⟨s, hs, hzero⟩
      exact ⟨_, ⟨s, hs, rfl⟩, (i32bits_ne_zero (hr s hs).1 (hr s hs).2).mpr hzero⟩

/-- Witness for C7: a first sample with offset zero and a second with
offset 7 leave the flag set. -/
theorem composition_offset_flag_witness :
    ∃ t, ([⟨0, 10, 0, true, [1]⟩, ⟨10, 10, 7, false, [2]⟩].foldl
        CmafChunkWriter.write_sample
        (CmafChunkWriter.write_start 1
          ⟨1000, 10, 0, 0x02000000, none⟩)).traf.trun = some t ∧
      (t.flags &&& TrunBox.FLAG_SAMPLE_CTS ≠ 0 ↔
        ∃ s ∈ ([⟨0, 10, 0, true, [1]⟩, ⟨10, 10, 7, false, [2]⟩] : List Mp4Sample),
          s.rendering_offset ≠ 0) :=
  composition_offset_flag ⟨1000, 10, 0, 0x02000000, none⟩ 1
    [⟨0, 10, 0, true, [1]⟩, ⟨10, 10, 7, false, [2]⟩]
    (by decide) (by decide)

end Mp4

namespace Mp4

theorem be32_length (x : Nat) : (be32 x).length = 4 := rfl

theorem be64_length (x : Nat) : (be64 x).length = 8 := rfl

theorem boxHeader_length (n s : Nat) : (boxHeader n s).length = 8 := rfl

theorem extHeader_length (v f : Nat) : (extHeader v f).length = 4 := rfl

theorem mfhd_write_length (m : MfhdBox) : m.write.length = m.get_size := rfl

theorem tfhd_write_length (t : TfhdBox) : t.write.length = t.get_size := by
  simp only [TfhdBox.write, TfhdBox.get_size, List.length_append,
    boxHeader_length, extHeader_length, be32_length, HEADER_SIZE, HEADER_EXT_SIZE]
  split_ifs <;> simp [be32, be64] <;> omega

theorem tfdt_write_length (t : TfdtBox) : t.write.length = t.get_size := by
  simp only [TfdtBox.write, TfdtBox.get_size, List.length_append,
    boxHeader_length, extHeader_length, HEADER_SIZE, HEADER_EXT_SIZE]
  split_ifs <;> simp [be32, be64]

theorem writeEntries_length (flags : Nat) :
    ∀ (n : Nat) (durs sizes fl cts : List Nat),
    (TrunBox.writeEntries flags n durs sizes fl cts).length =
      n * TrunBox.entrySize flags := by
  intro n
  induction n with
  | zero => intro durs sizes fl cts; simp [TrunBox.writeEntries]
  | succ n ih =>
    intro durs sizes fl cts
    simp only [TrunBox.writeEntries, List.length_append, ih,
      TrunBox.entrySize]
    split_ifs <;> simp [be32] <;> ring

theorem trun_write_length (t : TrunBox) : t.write.length = t.get_size := by
  simp only [TrunBox.write, TrunBox.get_size, List.length_append,
    boxHeader_length, extHeader_length, be32_length, writeEntries_length,
    HEADER_SIZE, HEADER_EXT_SIZE]
  split_ifs <;> simp [be32] <;> omega

theorem traf_write_length (t : TrafBox) : t.write.length = t.get_size := by
  simp only [TrafBox.write, TrafBox.get_size, List.length_append,
    boxHeader_length, tfhd_write_length]
  cases t.tfdt <;> cases t.trun <;>
    simp [tfdt_write_length, trun_write_length, HEADER_SIZE]

theorem moof_write_length (m : MoofBox) : m.write.length = m.get_size := by
  simp only [MoofBox.write, MoofBox.get_size, List.length_append,
    boxHeader_length, mfhd_write_length, MfhdBox.get_size]
  induction m.trafs with
  | nil => simp [HEADER_SIZE]
  | cons tr rest ih =>
    simp only [List.map_cons, List.flatten_cons, List.length_append,
      List.sum_cons, traf_write_length]
    omega

end Mp4

namespace Mp4

theorem i32val_of_lt {n : Nat} (h : n < 2147483648) : i32val n = (n : Int) := by
  have h2 : n % 4294967296 = n := Nat.mod_eq_of_lt (by omega)
  unfold i32val
  rw [h2, if_pos h]


theorem moofPatched_get_size (w : CmafChunkWriter) (seq : Nat) :
    (w.moofPatched seq).get_size = (w.moofProbe seq).get_size := by
  simp only [CmafChunkWriter.moofPatched, CmafChunkWriter.moofProbe,
    MoofBox.get_size]
  cases h : w.traf.trun <;>
    simp [h, TrafBox.get_size, TrunBox.get_size]

/-- C8: in write_end, the data offset patched into the run equals the
serialized size of the movie-fragment container plus the media-data box
header size; the emitted stream is the pending emsg boxes, the pending
prft box, the moof bytes, the 8-byte mdat header, then the sample
payloads — so the first payload byte sits exactly data-offset bytes after
the start of the moof box. -/
theorem write_end_data_offset (w : CmafChunkWriter) (seq : Nat) (t0 : TrunBox)
    (h : w.traf.trun = some t0)
    (hsz : (w.moofProbe seq).get_size + HEADER_SIZE < 2147483648) :
    ∃ t, ((w.moofPatched seq).trafs.headD ⟨TfhdBox.default, none, none⟩).trun = some t ∧
      t.data_offset = some (((w.moofPatched seq).write.length + HEADER_SIZE : Nat)) ∧
      w.write_end seq = w.emsgs.flatten ++
        (match w.prft with | some p => p.write | none => []) ++
        (w.moofPatched seq).write ++
        boxHeader mdatFourcc (HEADER_SIZE + (w.samples.map List.length).sum) ++
        w.samples.flatten ∧
      (boxHeader mdatFourcc (HEADER_SIZE + (w.samples.map List.length).sum)).length =
        HEADER_SIZE := by
  have hlen : (w.moofPatched seq).write.length = (w.moofProbe seq).get_size := by
    rw [moof_write_length, moofPatched_get_size]
  refine ⟨{ t0 with data_offset := some (i32val ((w.moofProbe seq).get_size + HEADER_SIZE)) }, ?_, ?_, rfl, rfl⟩
  · simp [CmafChunkWriter.moofPatched, CmafChunkWriter.moofProbe, h]
  · rw [hlen, i32val_of_lt hsz]
    norm_cast

end Mp4

namespace Mp4

/-- Witness for C8: one sync sample of 3 payload bytes. -/
theorem write_end_data_offset_witness :
    ∃ t, ((((CmafChunkWriter.write_start 1 ⟨1000, 10, 0, 0, none⟩).write_sample
        ⟨0, 10, 0, true, [9, 9, 9]⟩).moofPatched 7).trafs.headD
          ⟨TfhdBox.default, none, none⟩).trun = some t ∧
      t.data_offset = some (((((CmafChunkWriter.write_start 1 ⟨1000, 10, 0, 0, none⟩).write_sample
          ⟨0, 10, 0, true, [9, 9, 9]⟩).moofPatched 7).write.length + HEADER_SIZE : Nat)) ∧
      ((CmafChunkWriter.write_start 1 ⟨1000, 10, 0, 0, none⟩).write_sample
          ⟨0, 10, 0, true, [9, 9, 9]⟩).write_end 7 =
        ((CmafChunkWriter.write_start 1 ⟨1000, 10, 0, 0, none⟩).write_sample
          ⟨0, 10, 0, true, [9, 9, 9]⟩).emsgs.flatten ++
        (match ((CmafChunkWriter.write_start 1 ⟨1000, 10, 0, 0, none⟩).write_sample
          ⟨0, 10, 0, true, [9, 9, 9]⟩).prft with | some p => p.write | none => []) ++
        (((CmafChunkWriter.write_start 1 ⟨1000, 10, 0, 0, none⟩).write_sample
          ⟨0, 10, 0, true, [9, 9, 9]⟩).moofPatched 7).write ++
        boxHeader mdatFourcc (HEADER_SIZE +
          ((((CmafChunkWriter.write_start 1 ⟨1000, 10, 0, 0, none⟩).write_sample
            ⟨0, 10, 0, true, [9, 9, 9]⟩).samples.map List.length).sum)) ++
        ((CmafChunkWriter.write_start 1 ⟨1000, 10, 0, 0, none⟩).write_sample
          ⟨0, 10, 0, true, [9, 9, 9]⟩).samples.flatten ∧
      (boxHeader mdatFourcc (HEADER_SIZE +
        ((((CmafChunkWriter.write_start 1 ⟨1000, 10, 0, 0, none⟩).write_sample
          ⟨0, 10, 0, true, [9, 9, 9]⟩).samples.map List.length).sum))).length =
        HEADER_SIZE :=
  write_end_data_offset _ 7 ⟨1, 773, some 0, some 33554432, 1, [10], [3], [33554432], [0]⟩
    (by decide) (by decide)

end Mp4

namespace Mp4

/-- C10: the movie header emitted by write_end carries next_track_id = 2,
for every sequence of add_track calls and every configuration. -/
theorem next_track_id_is_constant_two (timescale : Nat)
    (durationSecs : Option Nat) (configs : List TrackConfig) :
    (configs.foldl CmafHeaderWriter.add_track
      (CmafHeaderWriter.write_start timescale durationSecs)).write_end.mvhd.next_track_id = 2 :=
  rfl

/-- C1 (amended): write_end sets every track header's duration and the
movie duration to the caller-supplied duration in whole seconds times the
movie timescale, and the media header's duration to the seconds times that
track's own timescale; sample tables are not consulted. -/
theorem header_write_end_durations (w : CmafHeaderWriter) :
    (∀ trak ∈ w.write_end.traks,
      trak.tkhd.duration = w.durationSecs * w.timescale ∧
      trak.mdia.mdhd.duration = w.durationSecs * trak.mdia.mdhd.timescale) ∧
    w.write_end.mvhd.duration = w.durationSecs * w.timescale := by
  constructor
  · intro trak htrak
    simp only [CmafHeaderWriter.write_end, CmafHeaderWriter.media_duration,
      List.mem_map] at htrak
    obtain ⟨tr, _, rfl⟩ := htrak
    exact ⟨rfl, rfl⟩
  · rfl

/-- Witness for C1 (amended): caller-supplied 3 seconds, movie timescale
1000, one track of timescale 600. -/
theorem header_write_end_durations_witness :
    ((((CmafHeaderWriter.write_start 1000 (some 3)).add_track
        ⟨600⟩).write_end.traks.headD ⟨⟨0⟩, ⟨⟨0, 0⟩⟩⟩).tkhd.duration =
      ((CmafHeaderWriter.write_start 1000 (some 3)).add_track ⟨600⟩).durationSecs *
        ((CmafHeaderWriter.write_start 1000 (some 3)).add_track ⟨600⟩).timescale ∧
    (((CmafHeaderWriter.write_start 1000 (some 3)).add_track
        ⟨600⟩).write_end.traks.headD ⟨⟨0⟩, ⟨⟨0, 0⟩⟩⟩).mdia.mdhd.duration =
      ((CmafHeaderWriter.write_start 1000 (some 3)).add_track ⟨600⟩).durationSecs *
        (((CmafHeaderWriter.write_start 1000 (some 3)).add_track
          ⟨600⟩).write_end.traks.headD ⟨⟨0⟩, ⟨⟨0, 0⟩⟩⟩).mdia.mdhd.timescale) ∧
    ((CmafHeaderWriter.write_start 1000 (some 3)).add_track
        ⟨600⟩).write_end.mvhd.duration =
      ((CmafHeaderWriter.write_start 1000 (some 3)).add_track ⟨600⟩).durationSecs *
        ((CmafHeaderWriter.write_start 1000 (some 3)).add_track ⟨600⟩).timescale := by
  have h := header_write_end_durations
    ((CmafHeaderWriter.write_start 1000 (some 3)).add_track ⟨600⟩)
  exact ⟨h.1 _ (by decide), h.2⟩

/-- C1 counterexample: with a caller-supplied duration of 3 seconds and
movie timescale 1000, the emitted track header's duration is 3000, not the
track's accumulated media duration from its sample table (0 — the header
writer never feeds its tracks any samples). -/
theorem header_track_duration_ignores_sample_table :
    ¬ ((((CmafHeaderWriter.write_start 1000 (some 3)).add_track
        ⟨600⟩).write_end.traks.headD ⟨⟨0⟩, ⟨⟨0, 0⟩⟩⟩).tkhd.duration =
      Mp4TrackWriter.accumulatedMediaDuration
        ((((CmafHeaderWriter.write_start 1000 (some 3)).add_track
          ⟨600⟩).tracks.headD ⟨0, 0, []⟩))) := by
  decide

end Mp4
